import Mathlib

/-!
Verification of the autoipindia background-job orchestration subsystem and its
React dashboard against the natural-language specification.

Definitions are a shallow embedding of the TypeScript sources under
`src/frontend/src` and `src/unnamed/part_000`..`part_007` (Dashboard, JobsPanel,
StatsCards/Pagination, CSVUploadForm, APIClient, shared types).  The Python
backend (`backend/jobs.py`, `backend/logic/ingest.py`, `backend/rate_limiter.py`)
is not part of the sources available here; where a property is decided by that
backend, the relevant component is modelled from the specification text and the
doc comment of the definition says so explicitly.
-/

/-! ## Data model - from `src/frontend/src/types/index.ts` -/

/-- Job status union from `types/index.ts` line 12:
`'pending' | 'running' | 'completed' | 'failed' | 'cancelled'`. -/
inductive JobStatus where
  | pending
  | running
  | completed
  | failed
  | cancelled
deriving DecidableEq, Repr, BEq

/-- Job progress payload from `types/index.ts` lines 23-28:
`progress?: { current, total, percentage, message }`.  The JavaScript `number`
`percentage` is embedded as a rational. -/
structure Progress where
  current : Nat
  total : Nat
  percentage : ℚ
  message : String
deriving DecidableEq

/-- Job result payload from `types/index.ts` lines 16-20:
`result?: { success, failed, skipped? }` (`skipped` is optional there). -/
structure JobResult where
  success : Nat
  failed : Nat
  skipped : Option Nat
deriving DecidableEq, Repr

/-- The `Job` interface from `types/index.ts` lines 9-29. -/
structure Job where
  id : String
  type : String
  status : JobStatus
  created_at : String
  started_at : Option String
  completed_at : Option String
  result : Option JobResult
  error : Option String
  progress : Option Progress
deriving DecidableEq

/-- The `Trademark` interface from `types/index.ts` lines 1-7
(`class_name: string | number` is embedded as a string). -/
structure Trademark where
  application_number : String
  wordmark : String
  class_name : String
  status : String
  timestamp : String
deriving DecidableEq, Repr

/-! ## Character-level string helpers

The dashboard compares status strings with
`tm.status.toLowerCase().includes(pat)`.  JavaScript `toLowerCase` and
`includes` are embedded at the level of character lists so that every
definition evaluates inside the kernel. -/

/-- Whether `pat` is a prefix of `s`, on character lists. -/
def startsWithChars : List Char → List Char → Bool
  | _, [] => true
  | [], _ :: _ => false
  | c :: cs, p :: ps => c == p && startsWithChars cs ps

/-- Whether `pat` occurs contiguously inside `s`, on character lists:
the embedding of JavaScript `String.prototype.includes`. -/
def containsChars : List Char → List Char → Bool
  | [], pat => pat.isEmpty
  | c :: cs, pat => startsWithChars (c :: cs) pat || containsChars cs pat

/-- Embedding of `s.toLowerCase().includes(pat)` (ASCII case folding). -/
def lowerIncludes (s pat : String) : Bool :=
  containsChars (s.data.map Char.toLower) pat.data

/-- Embedding of JavaScript `trim` on a character list. -/
def trimChars (cs : List Char) : List Char :=
  ((cs.dropWhile Char.isWhitespace).reverse.dropWhile Char.isWhitespace).reverse

/-! ## StatsCards - from `src/frontend/src/components/StatsCards.tsx` lines 9-18 -/

/-- `trademarks.length` (line 10). -/
def totalCount (tms : List Trademark) : Nat := tms.length

/-- Count of trademarks whose lower-cased status contains `"registered"`
(lines 11-13). -/
def registeredCount (tms : List Trademark) : Nat :=
  (tms.filter fun tm => lowerIncludes tm.status "registered").length

/-- Count of trademarks whose lower-cased status contains `"pending"` or
`"examination"` (lines 14-17). -/
def pendingCount (tms : List Trademark) : Nat :=
  (tms.filter fun tm =>
    lowerIncludes tm.status "pending" || lowerIncludes tm.status "examination").length

/-- `other = total - registered - pending` (line 18); JavaScript arithmetic on
`number` can go negative, so the value is an integer. -/
def otherCount (tms : List Trademark) : Int :=
  (totalCount tms : Int) - registeredCount tms - pendingCount tms

/-! ## Pagination - from `src/frontend/src/components/StatsCards.tsx`
(second document in the file), `getPageNumbers`, lines 73-111 -/

/-- One entry of the pagination strip: a page number or the ellipsis. -/
inductive PageEntry where
  | num (n : Nat)
  | dots
deriving DecidableEq, Repr

/-- Embedding of `getPageNumbers` (lines 73-111, with `maxVisible = 7`):
all pages when `total_pages <= 7`, otherwise the first page, a window around
the current page, and the last page, with ellipses. -/
def getPageNumbers (page total_pages : Nat) : List PageEntry :=
  if total_pages ≤ 7 then
    (List.range total_pages).map fun i => PageEntry.num (i + 1)
  else if page ≤ 3 then
    [PageEntry.num 1, PageEntry.num 2, PageEntry.num 3, PageEntry.num 4,
     PageEntry.dots, PageEntry.num total_pages]
  else if total_pages - 2 ≤ page then
    [PageEntry.num 1, PageEntry.dots, PageEntry.num (total_pages - 3),
     PageEntry.num (total_pages - 2), PageEntry.num (total_pages - 1),
     PageEntry.num total_pages]
  else
    [PageEntry.num 1, PageEntry.dots, PageEntry.num (page - 1), PageEntry.num page,
     PageEntry.num (page + 1), PageEntry.dots, PageEntry.num total_pages]

/-! ## Dashboard refresh-all soft cap - from `src/unnamed/part_000` lines 92 and 128-131 -/

/-- `jobs?.filter(j => j.status === 'running').length || 0` (line 92). -/
def runningJobsCount (jobs : List Job) : Nat :=
  (jobs.filter fun j => j.status == JobStatus.running).length

/-- The `disabled` condition of the Refresh All button (line 130):
`loadingTrademarks || runningJobsCount >= 5`. -/
def refreshAllDisabled (loadingTrademarks : Bool) (jobs : List Job) : Bool :=
  loadingTrademarks || decide (5 ≤ runningJobsCount jobs)

/-! ## CSV upload - from `src/frontend/src/components/CSVUploadForm.tsx` -/

/-- The `CSVRow` shape built by `parseCSV` (`types/index.ts` lines 47-54):
each field is present exactly when the corresponding non-empty cell was seen. -/
structure CSVRow where
  application_number : Option String
  wordmark : Option String
  class_name : Option String
deriving DecidableEq, Repr

/-- The row with no field set, as initialised at `CSVUploadForm.tsx` lines 32-34. -/
def emptyRow : CSVRow := ⟨none, none, none⟩

/-- One step of the header loop of `parseCSV` (lines 36-47): assign the cell
value to the field selected by the (lower-cased, trimmed) header, but only when
the trimmed value is non-empty; `h` and `v` are already normalised character
lists. -/
def applyHeader (row : CSVRow) (h v : List Char) : CSVRow :=
  if v.isEmpty then row
  else if h = "application_number".data then { row with application_number := some (String.mk v) }
  else if h = "wordmark".data then { row with wordmark := some (String.mk v) }
  else if h = "class_name".data || h = "class".data then { row with class_name := some (String.mk v) }
  else row

/-- Embedding of the per-line part of `parseCSV` (lines 30-47): headers are
trimmed and lower-cased (line 27), cells are trimmed (lines 31 and 37), and
each header assigns its cell into the row. -/
def parseLine (headers cells : List String) : CSVRow :=
  ((headers.map fun h => trimChars (h.data.map Char.toLower)).zip
    (cells.map fun v => trimChars v.data)).foldl
      (fun row hv => applyHeader row hv.1 hv.2) emptyRow

/-- The row validation of `parseCSV` lines 49-53 (also re-run at lines 110-113):
`isValid = !!application_number || (!!wordmark && !!class_name)`. -/
def rowIsValid (r : CSVRow) : Bool :=
  r.application_number.isSome || (r.wordmark.isSome && r.class_name.isSome)

/-- The per-row validation error text of lines 54-56. -/
def validationError : String :=
  "Either application_number OR (wordmark + class_name) required"

/-- The `error` field attached to a row (lines 54-56): set exactly when the
row is invalid. -/
def rowError (r : CSVRow) : Option String :=
  if rowIsValid r then none else some validationError

/-- `csvData.filter(row => row.isValid)` from `handleSubmit` (line 139). -/
def validRows (rows : List CSVRow) : List CSVRow := rows.filter rowIsValid

/-- Outcome of `handleSubmit` (lines 138-181): either nothing is sent
(`'No valid rows to submit'`, lines 141-147) or exactly the valid rows are
serialised and uploaded (lines 149-163). -/
inductive SubmitAction where
  | rejected (msg : String)
  | submitted (rows : List CSVRow)
deriving DecidableEq, Repr

/-- Embedding of the submission decision of `handleSubmit` (lines 138-163). -/
def handleSubmit (rows : List CSVRow) : SubmitAction :=
  if (validRows rows).length = 0 then SubmitAction.rejected "No valid rows to submit"
  else SubmitAction.submitted (validRows rows)

/-! ## Job Registry state machine

The registry itself lives in `backend/jobs.py`, which is not among the
available sources (only the changelog and README describe it); its state
machine is therefore modelled from the specification. -/

/-- Modelled from the spec: terminal statuses of §3 / §4.1 (the backend
`backend/jobs.py` is not under the available sources) - "terminal states
(completed, failed, cancelled) are final". -/
def isTerminal : JobStatus → Bool
  | JobStatus.completed => true
  | JobStatus.failed => true
  | JobStatus.cancelled => true
  | _ => false

/-- Modelled from the spec: the legal transition relation of §4.1 (the backend
`backend/jobs.py` is not under the available sources) -
"pending to running to one of completed, failed, cancelled; pending to
cancelled directly; no other transitions are legal". -/
def legalTransition : JobStatus → JobStatus → Bool
  | JobStatus.pending, JobStatus.running => true
  | JobStatus.running, JobStatus.completed => true
  | JobStatus.running, JobStatus.failed => true
  | JobStatus.running, JobStatus.cancelled => true
  | JobStatus.pending, JobStatus.cancelled => true
  | _, _ => false

/-! ## Job Runner and Ingestion Pipeline

The runner and pipeline live in `backend/jobs.py` and
`backend/logic/ingest.py`, neither of which is under the available sources;
they are modelled from §4.2 of the specification. -/

/-- Modelled from the spec: the outcome of one unit of work, §4.2 - "exactly
one of success, skipped, failed per processed unit" (`backend/logic/ingest.py`
is not under the available sources). -/
inductive UnitOutcome where
  | success
  | skipped
  | failedUnit (reason : String)
deriving DecidableEq, Repr

/-- Modelled from the spec: what the runner encounters while driving one unit,
§4.2 / §7 - either a processed unit with its outcome (`UpstreamUnitFailure`
is absorbed into the tally) or an infrastructure-level error
(`InfrastructureFailure`: store unreachable, internal invariant violation). -/
inductive UnitEvent where
  | unit (o : UnitOutcome)
  | infra (msg : String)
deriving DecidableEq, Repr

/-- Modelled from the spec: the running result tally `{success, failed,
skipped}` of §3, kept by the runner in `backend/jobs.py` (not under the
available sources). -/
structure Tally where
  success : Nat
  failed : Nat
  skipped : Nat
deriving DecidableEq, Repr

/-- The all-zero tally a job starts with. -/
def Tally.zero : Tally := ⟨0, 0, 0⟩

/-- Total number of units accounted for by a tally. -/
def Tally.sum (t : Tally) : Nat := t.success + t.failed + t.skipped

/-- Modelled from the spec: "every outcome increments the corresponding
counter in the running result tally" (§4.2). -/
def addOutcome (t : Tally) : UnitOutcome → Tally
  | UnitOutcome.success => { t with success := t.success + 1 }
  | UnitOutcome.skipped => { t with skipped := t.skipped + 1 }
  | UnitOutcome.failedUnit _ => { t with failed := t.failed + 1 }

/-- Modelled from the spec: the job-level loop of the runner over the events
of a job (§4.2 job-level semantics, `backend/jobs.py` not under the available
sources): unit outcomes are tallied and never abort the job; the first
infrastructure-level error makes the whole job `failed`; with no such error
the job reaches `completed`. -/
def runUnits : List UnitEvent → Tally → JobStatus × Tally
  | [], t => (JobStatus.completed, t)
  | UnitEvent.unit o :: rest, t => runUnits rest (addOutcome t o)
  | UnitEvent.infra _ :: _, t => (JobStatus.failed, t)

/-- Whether any infrastructure-level error occurs among the events. -/
def hasInfra : List UnitEvent → Bool
  | [] => false
  | UnitEvent.unit _ :: rest => hasInfra rest
  | UnitEvent.infra _ :: _ => true

/-- Number of per-unit failures among the events. -/
def countUnitFailures : List UnitEvent → Nat
  | [] => 0
  | UnitEvent.unit (UnitOutcome.failedUnit _) :: rest => countUnitFailures rest + 1
  | _ :: rest => countUnitFailures rest

/-- Modelled from the spec: the runner loop with the cooperative cancellation
checkpoint of §4.2 - "immediately before starting each unit, the Runner checks
the cancellation flag; if set, it stops, leaves remaining units unprocessed,
and transitions the job to cancelled".  `cancelIn = some c` means the flag
becomes observable at the checkpoint immediately before the unit with 0-based
index `c`; `none` means cancellation is never requested. -/
def runLoop : List UnitOutcome → Option Nat → Tally → JobStatus × Tally
  | [], _, t => (JobStatus.completed, t)
  | _ :: _, some 0, t => (JobStatus.cancelled, t)
  | o :: rest, some (c + 1), t => runLoop rest (some c) (addOutcome t o)
  | o :: rest, none, t => runLoop rest none (addOutcome t o)

/-! ## Cancellation requests - registry side

The endpoint `POST /jobs/(job id)/cancel` is called from
`src/unnamed/part_004` (`APIClient.cancelJob`, lines 296-300) and surfaced by
the cancel button of `src/unnamed/part_003` (lines 163-185); the registry side
(`backend/jobs.py`, changelog "Job cancellation ... cooperative cancellation
mechanism") is not under the available sources and is modelled from §4.1. -/

/-- Modelled from the spec: the registry record of one job as seen by
`requestCancel` - its status and the cooperative cancellation flag
(`backend/jobs.py` not under the available sources). -/
structure JobRec where
  status : JobStatus
  cancelRequested : Bool
deriving DecidableEq, Repr

/-- Modelled from the spec: the result alternatives of
`requestCancel(id) -> ok | NotFound | AlreadyTerminal` (§4.1). -/
inductive CancelOutcome where
  | ok
  | notFound
  | alreadyTerminal
deriving DecidableEq, Repr

/-- Modelled from the spec: `requestCancel` of §4.1 (`backend/jobs.py` not
under the available sources) - on a pending job transition directly to
cancelled; on a running job only set the cancellation flag; on a terminal job
report `AlreadyTerminal` as a no-op; on an unknown id report `NotFound`. -/
def requestCancel : Option JobRec → CancelOutcome × Option JobRec
  | none => (CancelOutcome.notFound, none)
  | some j =>
    if isTerminal j.status then (CancelOutcome.alreadyTerminal, some j)
    else if j.status == JobStatus.pending then
      (CancelOutcome.ok, some { status := JobStatus.cancelled, cancelRequested := true })
    else (CancelOutcome.ok, some { j with cancelRequested := true })

/-! ## CAPTCHA retry loop

The loop lives in the scraping pipeline (`backend/logic/ingest.py` with
`backend/helpers`, not under the available sources; the README documents
`CAPTCHA_MAX_RETRIES`, default 5); it is modelled from §4.2 step 3 and the
design note of §9. -/

/-- Modelled from the spec: the outcome of the bounded CAPTCHA retry loop
(§4.2 step 3) - either some attempt was accepted, or all attempts were
exhausted. -/
inductive CaptchaOutcome where
  | solved (attemptsUsed : Nat)
  | exhausted
deriving DecidableEq, Repr

/-- Modelled from the spec: the explicit bounded retry loop of §4.2 step 3 and
§9 (`backend/logic/ingest.py` not under the available sources), carrying the
attempt counter.  `fetch i` is the i-th freshly fetched challenge image,
`solve` the CaptchaSolver collaborator and `accepted ch sol` whether the site
accepts the solve; after a rejection the loop fetches the next fresh challenge
(index `i + 1`), never resubmitting the rejected one.  The returned trace
lists the indices of the challenges actually submitted. -/
def captchaLoop {α : Type} (fetch : Nat → α) (solve : α → String)
    (accepted : α → String → Bool) : Nat → Nat → CaptchaOutcome × List Nat
  | 0, _ => (CaptchaOutcome.exhausted, [])
  | rem + 1, i =>
    if accepted (fetch i) (solve (fetch i)) then (CaptchaOutcome.solved (i + 1), [i])
    else
      let r := captchaLoop fetch solve accepted rem (i + 1)
      (r.1, i :: r.2)

/-- Modelled from the spec: run the retry loop with the configured maximum
attempt count, starting from the first fresh challenge. -/
def captchaRun {α : Type} (maxAttempts : Nat) (fetch : Nat → α) (solve : α → String)
    (accepted : α → String → Bool) : CaptchaOutcome × List Nat :=
  captchaLoop fetch solve accepted maxAttempts 0

/-- Modelled from the spec: the unit outcome induced by the CAPTCHA loop -
"exhausting attempts marks the unit failed with reason captcha exhausted"
(§4.2 step 3); an accepted solve lets the unit continue towards success. -/
def captchaUnit : CaptchaOutcome → UnitOutcome
  | CaptchaOutcome.solved _ => UnitOutcome.success
  | CaptchaOutcome.exhausted => UnitOutcome.failedUnit "captcha exhausted"

/-! ## Progress reporting

`updateProgress` lives in `backend/jobs.py` (changelog: "progress field ...
current, total, percentage, message; real-time progress updates during
ingestion"), not under the available sources; the update sequence of a
multi-unit job is modelled from §3 and §4.2. -/

/-- Modelled from the spec: the progress value after `k` of `total` units,
§4.2 - "current incremented, total fixed at job start,
percentage = current/total*100, and a short human-readable message". -/
def progressAfter (total k : Nat) (message : String) : Progress :=
  ⟨k, total, (k : ℚ) / (total : ℚ) * 100, message⟩

/-- Modelled from the spec: the sequence of values passed to `updateProgress`
over the life of a multi-unit job of `total` units (one call per processed
unit, plus the initial zero progress). -/
def progressUpdates (total : Nat) (msg : Nat → String) : List Progress :=
  (List.range (total + 1)).map fun k => progressAfter total k (msg k)

/-- A registry snapshot of a job as exposed to pollers: its status and, when
present, its progress (from `types/index.ts` lines 12 and 23-28). -/
structure JobSnap where
  status : JobStatus
  progress : Option Progress
deriving DecidableEq

/-- Modelled from the spec: the snapshots a poller can observe over the life
of a job of `total` units that runs to completion (§3) - `pending` with no
progress, then `running` snapshots carrying each progress update, then the
terminal snapshot with no progress ("progress present only while running"). -/
def runnerTrace (total : Nat) (msg : Nat → String) : List JobSnap :=
  ⟨JobStatus.pending, none⟩ ::
    ((progressUpdates total msg).map fun p => ⟨JobStatus.running, some p⟩)
    ++ [⟨JobStatus.completed, none⟩]

/-! ## Helper lemmas about the runner models -/

theorem hasInfra_append (l1 l2 : List UnitEvent) :
    hasInfra (l1 ++ l2) = (hasInfra l1 || hasInfra l2) := by
  induction l1 with
  | nil => simp [hasInfra]
  | cons e rest ih =>
    cases e with
    | unit o => simpa [hasInfra] using ih
    | infra m => simp [hasInfra]

theorem runUnits_completed_of_no_infra (events : List UnitEvent) :
    ∀ t : Tally, hasInfra events = false →
      (runUnits events t).1 = JobStatus.completed := by
  induction events with
  | nil => intro t _; rfl
  | cons e rest ih =>
    intro t h
    cases e with
    | unit o => exact ih (addOutcome t o) (by simpa [hasInfra] using h)
    | infra m => simp [hasInfra] at h

theorem runUnits_failed_tally (events : List UnitEvent) :
    ∀ t : Tally, hasInfra events = false →
      (runUnits events t).2.failed = t.failed + countUnitFailures events := by
  induction events with
  | nil => intro t _; simp [runUnits, countUnitFailures]
  | cons e rest ih =>
    intro t h
    cases e with
    | unit o =>
      have h' : hasInfra rest = false := by simpa [hasInfra] using h
      cases o with
      | success =>
        have hr := ih (addOutcome t UnitOutcome.success) h'
        simp [runUnits, addOutcome, countUnitFailures] at hr ⊢
        omega
      | skipped =>
        have hr := ih (addOutcome t UnitOutcome.skipped) h'
        simp [runUnits, addOutcome, countUnitFailures] at hr ⊢
        omega
      | failedUnit reason =>
        have hr := ih (addOutcome t (UnitOutcome.failedUnit reason)) h'
        simp [runUnits, addOutcome, countUnitFailures] at hr ⊢
        omega
    | infra m => simp [hasInfra] at h

theorem runUnits_infra_of_failed (events : List UnitEvent) :
    ∀ t : Tally, (runUnits events t).1 = JobStatus.failed → hasInfra events = true := by
  induction events with
  | nil => intro t h; simp [runUnits] at h
  | cons e rest ih =>
    intro t h
    cases e with
    | unit o =>
      simp only [runUnits] at h
      simpa [hasInfra] using ih (addOutcome t o) h
    | infra m => simp [hasInfra]

theorem addOutcome_sum (t : Tally) (o : UnitOutcome) :
    (addOutcome t o).sum = t.sum + 1 := by
  cases o <;> simp [addOutcome, Tally.sum] <;> omega

theorem foldl_addOutcome_sum (l : List UnitOutcome) :
    ∀ t : Tally, (l.foldl addOutcome t).sum = t.sum + l.length := by
  induction l with
  | nil => intro t; simp
  | cons o rest ih =>
    intro t
    simp only [List.foldl_cons, List.length_cons, ih (addOutcome t o), addOutcome_sum]
    omega

theorem runLoop_none (outcomes : List UnitOutcome) :
    ∀ t : Tally, runLoop outcomes none t =
      (JobStatus.completed, outcomes.foldl addOutcome t) := by
  induction outcomes with
  | nil => intro t; rfl
  | cons o rest ih => intro t; simpa [runLoop] using ih (addOutcome t o)

theorem runLoop_cancelled (outcomes : List UnitOutcome) :
    ∀ (c : Nat) (t : Tally), c < outcomes.length →
      runLoop outcomes (some c) t =
        (JobStatus.cancelled, (outcomes.take c).foldl addOutcome t) := by
  induction outcomes with
  | nil => intro c t h; simp at h
  | cons o rest ih =>
    intro c t h
    cases c with
    | zero => rfl
    | succ c =>
      have hc : c < rest.length := by simpa using h
      simpa [runLoop, List.take] using ih c (addOutcome t o) hc

theorem captchaLoop_trace_length {α : Type} (fetch : Nat → α) (solve : α → String)
    (accepted : α → String → Bool) :
    ∀ rem i : Nat, (captchaLoop fetch solve accepted rem i).2.length ≤ rem := by
  intro rem
  induction rem with
  | zero => intro i; simp [captchaLoop]
  | succ rem ih =>
    intro i
    by_cases hacc : accepted (fetch i) (solve (fetch i)) = true
    · simp [captchaLoop, hacc]
    · simp only [captchaLoop, if_neg hacc, List.length_cons]
      exact Nat.succ_le_succ (ih (i + 1))

theorem captchaLoop_trace_range {α : Type} (fetch : Nat → α) (solve : α → String)
    (accepted : α → String → Bool) :
    ∀ rem i : Nat, (captchaLoop fetch solve accepted rem i).2 =
      List.range' i (captchaLoop fetch solve accepted rem i).2.length := by
  intro rem
  induction rem with
  | zero => intro i; simp [captchaLoop]
  | succ rem ih =>
    intro i
    by_cases hacc : accepted (fetch i) (solve (fetch i)) = true
    · simp [captchaLoop, hacc, List.range'_succ]
    · simp only [captchaLoop, if_neg hacc, List.length_cons, List.range'_succ]
      exact congrArg (i :: ·) (ih (i + 1))

theorem captchaLoop_exhausted_length {α : Type} (fetch : Nat → α) (solve : α → String)
    (accepted : α → String → Bool) :
    ∀ rem i : Nat, (captchaLoop fetch solve accepted rem i).1 = CaptchaOutcome.exhausted →
      (captchaLoop fetch solve accepted rem i).2.length = rem := by
  intro rem
  induction rem with
  | zero => intro i _; simp [captchaLoop]
  | succ rem ih =>
    intro i h
    by_cases hacc : accepted (fetch i) (solve (fetch i)) = true
    · simp [captchaLoop, hacc] at h
    · simp only [captchaLoop, if_neg hacc, List.length_cons] at h ⊢
      exact congrArg Nat.succ (ih (i + 1) h)

theorem progress_pct_mono (total : Nat) {a b : Nat} (h : a ≤ b) :
    (a : ℚ) / (total : ℚ) * 100 ≤ (b : ℚ) / (total : ℚ) * 100 := by
  rcases Nat.eq_zero_or_pos total with h0 | hpos
  · subst h0; simp
  · have ht : (0 : ℚ) < total := by exact_mod_cast hpos
    have hab : (a : ℚ) ≤ b := by exact_mod_cast h
    have := (div_le_div_iff_of_pos_right ht).mpr hab
    nlinarith

/-! ## Claim theorems -/

/-- C1: for every job, a unit-level failure never moves the job to `failed`:
with no infrastructure-level error among its events the job still reaches
`completed` with every failed unit counted in the `failed` tally, and the job
ends `failed` only when an infrastructure-level error occurs. -/
theorem C1_unit_failures_never_fail_job (events : List UnitEvent) :
    (hasInfra events = false →
      (runUnits events Tally.zero).1 = JobStatus.completed ∧
      (runUnits events Tally.zero).2.failed = countUnitFailures events) ∧
    ((runUnits events Tally.zero).1 = JobStatus.failed → hasInfra events = true) := by
  constructor
  · intro h
    refine ⟨runUnits_completed_of_no_infra events Tally.zero h, ?_⟩
    simpa [Tally.zero] using runUnits_failed_tally events Tally.zero h
  · exact runUnits_infra_of_failed events Tally.zero

/-- Events of a three-unit job whose second unit fails at parse time. -/
def demoEvents : List UnitEvent :=
  [UnitEvent.unit UnitOutcome.success,
   UnitEvent.unit (UnitOutcome.failedUnit "parse error"),
   UnitEvent.unit UnitOutcome.success]

/-- Witness for C1: a job with one parse-error unit completes with one
failure counted. -/
theorem C1_unit_failures_never_fail_job_witness :
    (runUnits demoEvents Tally.zero).1 = JobStatus.completed ∧
    (runUnits demoEvents Tally.zero).2.failed = 1 := by
  have h := (C1_unit_failures_never_fail_job demoEvents).1 (by decide)
  refine ⟨h.1, ?_⟩
  rw [h.2]
  decide

/-- C2: the status field ranges over exactly the five values pending, running,
completed, failed, cancelled; the legal transitions are exactly
pending-to-running, running-to-completed/failed/cancelled and
pending-to-cancelled; terminal states admit no outgoing transition. -/
theorem C2_job_status_state_machine :
    (([JobStatus.pending, JobStatus.running, JobStatus.completed, JobStatus.failed,
        JobStatus.cancelled] : List JobStatus).Nodup ∧
      ∀ s : JobStatus, s ∈ [JobStatus.pending, JobStatus.running, JobStatus.completed,
        JobStatus.failed, JobStatus.cancelled]) ∧
    (∀ s t : JobStatus, legalTransition s t = true ↔
      ((s = JobStatus.pending ∧ t = JobStatus.running) ∨
       (s = JobStatus.running ∧ t = JobStatus.completed) ∨
       (s = JobStatus.running ∧ t = JobStatus.failed) ∨
       (s = JobStatus.running ∧ t = JobStatus.cancelled) ∨
       (s = JobStatus.pending ∧ t = JobStatus.cancelled))) ∧
    (∀ s t : JobStatus, isTerminal s = true → legalTransition s t = false) := by
  refine ⟨⟨by decide, fun s => by cases s <;> simp⟩,
    fun s t => by cases s <;> cases t <;> decide,
    fun s t h => by cases s <;> cases t <;> revert h <;> decide⟩

/-- Witness for C2: a completed job admits no transition back to running. -/
theorem C2_job_status_state_machine_witness :
    legalTransition JobStatus.completed JobStatus.running = false :=
  C2_job_status_state_machine.2.2 JobStatus.completed JobStatus.running rfl

/-- C3: a batch-import row is accepted iff it carries an application number or
both a wordmark and a class name; every row with neither gets the per-row
validation error and is excluded from the submitted rows, while the remaining
valid rows are still submitted. -/
theorem C3_batch_row_validation (rows : List CSVRow) :
    (∀ r : CSVRow, rowIsValid r = true ↔
      (r.application_number.isSome = true ∨
        (r.wordmark.isSome = true ∧ r.class_name.isSome = true))) ∧
    (∀ r : CSVRow, rowIsValid r = false →
      rowError r = some validationError ∧ r ∉ validRows rows) ∧
    (∀ r ∈ rows, rowIsValid r = true → r ∈ validRows rows) ∧
    (0 < (validRows rows).length →
      handleSubmit rows = SubmitAction.submitted (validRows rows)) := by
  refine ⟨?_, ?_, ?_, ?_⟩
  · intro r
    simp [rowIsValid, Bool.or_eq_true, Bool.and_eq_true]
  · intro r h
    refine ⟨by simp [rowError, h], fun hmem => ?_⟩
    have := (List.mem_filter.mp hmem).2
    rw [h] at this
    exact Bool.false_ne_true this
  · intro r hr h
    exact List.mem_filter.mpr ⟨hr, h⟩
  · intro h
    unfold handleSubmit
    rw [if_neg (by omega)]

/-- The batch headers of Scenario B. -/
def scenarioHeaders : List String := ["application_number", "wordmark", "class_name"]

/-- Scenario B row 1: has an application number. -/
def scenarioRow1 : CSVRow := parseLine scenarioHeaders ["1234567", "", ""]

/-- Scenario B row 2: has neither an application number nor wordmark+class. -/
def scenarioRow2 : CSVRow := parseLine scenarioHeaders ["", "", ""]

/-- Scenario B row 3: has wordmark and class. -/
def scenarioRow3 : CSVRow := parseLine scenarioHeaders ["", "NIKE", "25"]

/-- Witness for C3 (Scenario B): of 3 rows with row 2 carrying neither field,
row 2 is rejected with the validation error and the job is submitted for the
other 2 rows. -/
theorem C3_batch_row_validation_witness :
    rowIsValid scenarioRow2 = false ∧
    rowError scenarioRow2 = some validationError ∧
    scenarioRow2 ∉ validRows [scenarioRow1, scenarioRow2, scenarioRow3] ∧
    handleSubmit [scenarioRow1, scenarioRow2, scenarioRow3] =
      SubmitAction.submitted [scenarioRow1, scenarioRow3] := by
  have h := C3_batch_row_validation [scenarioRow1, scenarioRow2, scenarioRow3]
  refine ⟨by decide, (h.2.1 scenarioRow2 (by decide)).1,
    (h.2.1 scenarioRow2 (by decide)).2, ?_⟩
  have h4 := h.2.2.2 (by decide)
  have hv : validRows [scenarioRow1, scenarioRow2, scenarioRow3] =
      [scenarioRow1, scenarioRow3] := by decide
  rw [hv] at h4
  exact h4

/-- C4: requesting cancellation on a pending job transitions it to cancelled
synchronously; on a running job it only sets the flag (the status stays
running) and the transition happens at the Runner's next per-unit checkpoint
with the result counting only the units processed before it; on a terminal
job it returns AlreadyTerminal as a no-op; on an unknown id, NotFound. -/
theorem C4_cancel_semantics (j : JobRec) (outcomes : List UnitOutcome) (c : Nat) :
    (j.status = JobStatus.pending →
      requestCancel (some j) =
        (CancelOutcome.ok, some ⟨JobStatus.cancelled, true⟩)) ∧
    (j.status = JobStatus.running →
      requestCancel (some j) = (CancelOutcome.ok, some { j with cancelRequested := true }) ∧
      ({ j with cancelRequested := true } : JobRec).status = JobStatus.running ∧
      (c < outcomes.length →
        runLoop outcomes (some c) Tally.zero =
          (JobStatus.cancelled, (outcomes.take c).foldl addOutcome Tally.zero))) ∧
    (isTerminal j.status = true →
      requestCancel (some j) = (CancelOutcome.alreadyTerminal, some j)) ∧
    requestCancel none = (CancelOutcome.notFound, none) := by
  obtain ⟨st, fl⟩ := j
  refine ⟨?_, ?_, ?_, rfl⟩
  · intro h
    simp only at h
    subst h
    rfl
  · intro h
    simp only at h
    subst h
    exact ⟨rfl, rfl, fun hc => runLoop_cancelled outcomes c Tally.zero hc⟩
  · intro h
    simp [requestCancel, h]

/-- Witness for C4: a pending job is cancelled synchronously; a running job
only gets its flag set and the loop observing the flag at the checkpoint
before the third unit cancels with two units counted; a completed job is a
no-op. -/
theorem C4_cancel_semantics_witness :
    requestCancel (some ⟨JobStatus.pending, false⟩) =
      (CancelOutcome.ok, some ⟨JobStatus.cancelled, true⟩) ∧
    requestCancel (some ⟨JobStatus.running, false⟩) =
      (CancelOutcome.ok, some ⟨JobStatus.running, true⟩) ∧
    runLoop [UnitOutcome.success, UnitOutcome.success, UnitOutcome.success]
      (some 2) Tally.zero = (JobStatus.cancelled, ⟨2, 0, 0⟩) ∧
    requestCancel (some ⟨JobStatus.completed, false⟩) =
      (CancelOutcome.alreadyTerminal, some ⟨JobStatus.completed, false⟩) := by
  have h1 := C4_cancel_semantics ⟨JobStatus.pending, false⟩ [] 0
  have h2 := C4_cancel_semantics ⟨JobStatus.running, false⟩
    [UnitOutcome.success, UnitOutcome.success, UnitOutcome.success] 2
  have h3 := C4_cancel_semantics ⟨JobStatus.completed, false⟩ [] 0
  refine ⟨h1.1 rfl, (h2.2.1 rfl).1, ?_, h3.2.2.1 rfl⟩
  have := (h2.2.1 rfl).2.2 (by decide)
  rw [this]
  decide

/-- C5: the CAPTCHA retry loop performs at most the configured maximum number
of attempts, every attempt submits a fresh challenge (the trace of submitted
challenge indices is the initial segment of the fresh-fetch sequence, with no
index repeated), exhausting all attempts yields the unit failure with reason
"captcha exhausted", and such a unit failure leaves the rest of the job
processed to completion. -/
theorem C5_captcha_bounded_retry {α : Type} (maxAttempts : Nat) (fetch : Nat → α)
    (solve : α → String) (accepted : α → String → Bool) :
    (captchaRun maxAttempts fetch solve accepted).2.length ≤ maxAttempts ∧
    (captchaRun maxAttempts fetch solve accepted).2 =
      List.range' 0 (captchaRun maxAttempts fetch solve accepted).2.length ∧
    (captchaRun maxAttempts fetch solve accepted).2.Nodup ∧
    ((captchaRun maxAttempts fetch solve accepted).1 = CaptchaOutcome.exhausted →
      (captchaRun maxAttempts fetch solve accepted).2 = List.range maxAttempts ∧
      captchaUnit (captchaRun maxAttempts fetch solve accepted).1 =
        UnitOutcome.failedUnit "captcha exhausted") ∧
    (∀ (pre post : List UnitEvent) (t : Tally),
      hasInfra pre = false → hasInfra post = false →
      (runUnits (pre ++ UnitEvent.unit (UnitOutcome.failedUnit "captcha exhausted") :: post)
        t).1 = JobStatus.completed) := by
  refine ⟨captchaLoop_trace_length fetch solve accepted maxAttempts 0,
    captchaLoop_trace_range fetch solve accepted maxAttempts 0, ?_, ?_, ?_⟩
  · show (captchaLoop fetch solve accepted maxAttempts 0).2.Nodup
    rw [captchaLoop_trace_range fetch solve accepted maxAttempts 0]
    exact List.nodup_range' 0 _
  · intro h
    have hlen := captchaLoop_exhausted_length fetch solve accepted maxAttempts 0 h
    refine ⟨?_, by rw [h]; rfl⟩
    show (captchaLoop fetch solve accepted maxAttempts 0).2 = List.range maxAttempts
    rw [captchaLoop_trace_range fetch solve accepted maxAttempts 0, hlen,
      List.range_eq_range']
  · intro pre post t hpre hpost
    refine runUnits_completed_of_no_infra _ t ?_
    rw [hasInfra_append, hpre]
    simpa [hasInfra] using hpost

/-- Witness for C5 (Scenario D): with max attempts 5 and a solver the site
rejects every time, the loop uses exactly the five fresh challenges 0..4,
the unit fails with reason "captcha exhausted", and a 3-unit job containing
that unit still completes with one failure counted. -/
theorem C5_captcha_bounded_retry_witness :
    (captchaRun 5 (fun i : Nat => i) (fun _ => "guess") (fun _ _ => false)).1 =
      CaptchaOutcome.exhausted ∧
    (captchaRun 5 (fun i : Nat => i) (fun _ => "guess") (fun _ _ => false)).2 =
      [0, 1, 2, 3, 4] ∧
    captchaUnit (captchaRun 5 (fun i : Nat => i) (fun _ => "guess") (fun _ _ => false)).1 =
      UnitOutcome.failedUnit "captcha exhausted" ∧
    runUnits [UnitEvent.unit UnitOutcome.success,
      UnitEvent.unit (UnitOutcome.failedUnit "captcha exhausted"),
      UnitEvent.unit UnitOutcome.success] Tally.zero =
      (JobStatus.completed, ⟨2, 1, 0⟩) := by
  have h := C5_captcha_bounded_retry 5 (fun i : Nat => i) (fun _ => "guess") (fun _ _ => false)
  have hex : (captchaRun 5 (fun i : Nat => i) (fun _ => "guess") (fun _ _ => false)).1 =
      CaptchaOutcome.exhausted := by decide
  refine ⟨hex, ?_, (h.2.2.2.1 hex).2, by decide⟩
  rw [(h.2.2.2.1 hex).1]
  decide

/-- C6: progress is present only while the job is running, and across the
sequence of updateProgress calls of a multi-unit job the total stays fixed at
the value set at job start, current and percentage are monotonically
non-decreasing, and percentage equals current/total*100 at every update. -/
theorem C6_progress_invariants (total : Nat) (msg : Nat → String) :
    (∀ snap ∈ runnerTrace total msg, snap.progress.isSome = true →
      snap.status = JobStatus.running) ∧
    (∀ p ∈ progressUpdates total msg, p.total = total ∧
      p.percentage = (p.current : ℚ) / (total : ℚ) * 100) ∧
    (progressUpdates total msg).Pairwise
      (fun p q => p.current ≤ q.current ∧ p.percentage ≤ q.percentage) := by
  refine ⟨?_, ?_, ?_⟩
  · intro snap hmem hsome
    rcases List.mem_cons.mp hmem with rfl | hmem2
    · simp at hsome
    rcases List.mem_append.mp hmem2 with hmap | hlast
    · obtain ⟨p, _, heq⟩ := List.mem_map.mp hmap
      rw [← heq]
    · rcases List.mem_singleton.mp hlast with rfl
      simp at hsome
  · intro p hp
    simp only [progressUpdates, List.mem_map, List.mem_range] at hp
    obtain ⟨k, _, rfl⟩ := hp
    exact ⟨rfl, rfl⟩
  · rw [progressUpdates, List.pairwise_map]
    exact (List.pairwise_lt_range (total + 1)).imp fun hab =>
      ⟨Nat.le_of_lt hab, progress_pct_mono total (Nat.le_of_lt hab)⟩

/-- Witness for C6: in a 4-unit job, the update after the second unit carries
total 4, current 2 and percentage 50; the pending snapshot carries no
progress. -/
theorem C6_progress_invariants_witness :
    (progressAfter 4 2 "unit 2").total = 4 ∧
    (progressAfter 4 2 "unit 2").current = 2 ∧
    (progressAfter 4 2 "unit 2").percentage = 50 ∧
    (⟨JobStatus.pending, none⟩ : JobSnap).progress.isSome = false := by
  have h := C6_progress_invariants 4 (fun _ => "unit 2")
  have hmem : progressAfter 4 2 "unit 2" ∈ progressUpdates 4 (fun _ => "unit 2") :=
    List.mem_map.mpr ⟨2, by simp, rfl⟩
  obtain ⟨ht, hp⟩ := h.2.1 _ hmem
  refine ⟨ht, rfl, ?_, rfl⟩
  rw [hp]
  norm_num [progressAfter]

/-- C7: a job that runs to completion has result.success + result.failed +
result.skipped equal to the number of units it attempted; a job cancelled at
the checkpoint before unit c counts exactly the c units processed before the
checkpoint, excluding the units never reached. -/
theorem C7_completed_result_sum (outcomes : List UnitOutcome) (c : Nat) :
    (runLoop outcomes none Tally.zero).1 = JobStatus.completed ∧
    ((runLoop outcomes none Tally.zero).2).sum = outcomes.length ∧
    (c < outcomes.length →
      (runLoop outcomes (some c) Tally.zero).1 = JobStatus.cancelled ∧
      ((runLoop outcomes (some c) Tally.zero).2).sum = c) := by
  refine ⟨?_, ?_, ?_⟩
  · rw [runLoop_none]
  · rw [runLoop_none]
    simpa [Tally.zero, Tally.sum] using foldl_addOutcome_sum outcomes Tally.zero
  · intro hc
    rw [runLoop_cancelled outcomes c Tally.zero hc]
    refine ⟨rfl, ?_⟩
    have := foldl_addOutcome_sum (outcomes.take c) Tally.zero
    simp only [Tally.zero, Tally.sum, List.length_take] at this ⊢
    omega

/-- Witness for C7: a 3-unit job with one success, one failure and one skip
completes with the counts summing to 3; the same job cancelled before its
second unit counts exactly 1 unit. -/
theorem C7_completed_result_sum_witness :
    ((runLoop [UnitOutcome.success, UnitOutcome.failedUnit "rate limited",
      UnitOutcome.skipped] none Tally.zero).2).sum = 3 ∧
    ((runLoop [UnitOutcome.success, UnitOutcome.failedUnit "rate limited",
      UnitOutcome.skipped] (some 1) Tally.zero).2).sum = 1 := by
  have h := C7_completed_result_sum
    [UnitOutcome.success, UnitOutcome.failedUnit "rate limited", UnitOutcome.skipped] 1
  exact ⟨by rw [h.2.1]; decide, (h.2.2 (by decide)).2⟩

/-- C8: the dashboard's Refresh All action is refused (button disabled)
whenever the number of running jobs reaches the threshold of 5, and a new
refresh-all request can be issued whenever fewer than 5 jobs are running and
loading is not in progress. -/
theorem C8_refresh_all_soft_cap (loading : Bool) (jobs : List Job) :
    (5 ≤ runningJobsCount jobs → refreshAllDisabled loading jobs = true) ∧
    (loading = false → runningJobsCount jobs < 5 →
      refreshAllDisabled loading jobs = false) := by
  constructor
  · intro h
    simp [refreshAllDisabled, h]
  · intro hl h
    simp [refreshAllDisabled, hl]
    omega

/-- A running job as listed by the dashboard. -/
def sampleRunningJob : Job :=
  ⟨"j", "ingest_all", JobStatus.running, "t0", some "t1", none, none, none, none⟩

/-- Witness for C8: with 5 running jobs the button is disabled; with 4
running jobs and no loading it is enabled. -/
theorem C8_refresh_all_soft_cap_witness :
    refreshAllDisabled false (List.replicate 5 sampleRunningJob) = true ∧
    refreshAllDisabled false (List.replicate 4 sampleRunningJob) = false := by
  constructor
  · exact (C8_refresh_all_soft_cap false (List.replicate 5 sampleRunningJob)).1 (by decide)
  · exact (C8_refresh_all_soft_cap false (List.replicate 4 sampleRunningJob)).2 rfl (by decide)

/-- C9: for 1 <= page <= total_pages with total_pages >= 1, getPageNumbers
returns at most 7 entries, always containing page 1 and page total_pages,
and when total_pages <= 7 it returns exactly the pages 1..total_pages in
order. -/
theorem C9_pagination_window (page total_pages : Nat) (h1 : 1 ≤ total_pages)
    (h2 : 1 ≤ page) (h3 : page ≤ total_pages) :
    (getPageNumbers page total_pages).length ≤ 7 ∧
    PageEntry.num 1 ∈ getPageNumbers page total_pages ∧
    PageEntry.num total_pages ∈ getPageNumbers page total_pages ∧
    (total_pages ≤ 7 →
      getPageNumbers page total_pages =
        (List.range total_pages).map fun i => PageEntry.num (i + 1)) := by
  unfold getPageNumbers
  rcases le_or_lt total_pages 7 with hle | hgt
  · rw [if_pos hle]
    refine ⟨by simpa using hle, ?_, ?_, fun _ => rfl⟩
    · exact List.mem_map.mpr ⟨0, List.mem_range.mpr (by omega), rfl⟩
    · exact List.mem_map.mpr ⟨total_pages - 1, List.mem_range.mpr (by omega), by
        simp only [PageEntry.num.injEq]
        omega⟩
  · rw [if_neg (by omega)]
    by_cases hp : page ≤ 3
    · rw [if_pos hp]
      exact ⟨by simp, by simp, by simp, fun h => by omega⟩
    · rw [if_neg hp]
      by_cases hq : total_pages - 2 ≤ page
      · rw [if_pos hq]
        exact ⟨by simp, by simp, by simp, fun h => by omega⟩
      · rw [if_neg hq]
        exact ⟨by simp, by simp, by simp, fun h => by omega⟩

/-- Witness for C9: with 10 pages and current page 5, the strip is the 7
entries 1, ellipsis, 4, 5, 6, ellipsis, 10; with 3 pages it is exactly
1, 2, 3. -/
theorem C9_pagination_window_witness :
    (getPageNumbers 5 10).length ≤ 7 ∧
    PageEntry.num 1 ∈ getPageNumbers 5 10 ∧
    PageEntry.num 10 ∈ getPageNumbers 5 10 ∧
    getPageNumbers 1 3 =
      [PageEntry.num 1, PageEntry.num 2, PageEntry.num 3] := by
  have h := C9_pagination_window 5 10 (by decide) (by decide) (by decide)
  have h3 := C9_pagination_window 1 3 (by decide) (by decide) (by decide)
  refine ⟨h.1, h.2.1, h.2.2.1, ?_⟩
  rw [h3.2.2.2 (by decide)]
  decide

/-- C10: the four dashboard statistics satisfy
registered + pending + other = total by construction, but the registered and
pending categories are substring tests on the same status text and can
overlap, so for some input the Other Status count is negative. -/
theorem C10_stats_overlap :
    (∀ tms : List Trademark,
      (registeredCount tms : Int) + pendingCount tms + otherCount tms = totalCount tms) ∧
    ∃ tms : List Trademark, otherCount tms < 0 := by
  constructor
  · intro tms
    unfold otherCount
    ring
  · exact ⟨[⟨"1", "ACME", "25", "Registered Pending", "t"⟩], by decide⟩
